import Mathlib

/-!
Verification development for kubectl-evict (pkg/cmd/evict.go, pkg/cmd/evict_api.go).

The Go source is shallowly embedded: pure decision logic becomes Lean
functions; the interactions with the cluster (REST config construction,
pod list queries, the discovery query, eviction submissions) are modelled
by a `Cluster` record of oracles, and each interaction performed by a run
is recorded as an event in a trace, in the order the Go code performs it.
Strings such as resource names, namespaces and error messages are kept as
Lean `String` values matching the Go literals.
-/

/-! ## Basic data: pods, group versions, discovery resources -/

/-- A pod, identified by name and namespace (corev1.Pod as used by the code:
only ObjectMeta.Name and ObjectMeta.Namespace are read). -/
structure Pod where
  name : String
  ns : String
deriving DecidableEq, Repr

/-- schema.GroupVersion. -/
structure GroupVersion where
  group : String
  version : String
deriving DecidableEq, Repr

/-- metav1.APIResource, restricted to the fields read by evictGroupVersion. -/
structure APIResource where
  name : String
  kind : String
  group : String
  version : String
deriving DecidableEq, Repr

/-- evict_api.go line 15: EvictionSubresource. -/
def EvictionSubresource : String := "pods/eviction"

/-- evict_api.go line 16: EvictionKind. -/
def EvictionKind : String := "Eviction"

/-- policyv1.SchemeGroupVersion: the stable eviction API group and version. -/
def PolicyV1SchemeGroupVersion : GroupVersion := { group := "policy", version := "v1" }

/-- metav1.NamespaceAll, the all-namespaces scope, is the empty string. -/
def NamespaceAll : String := ""

/-- metav1.DryRunAll. -/
def DryRunAll : String := "All"

/-! ## Label and field selectors

The relevant parts of k8s.io/apimachinery label selector handling.
Label key and value syntax validation performed by the library is not
modelled; the structure of the conversion (which operators are accepted,
when the conversion fails, what shape the resulting selector has) is. -/

/-- One selector requirement: a key, an operator and a value list. Used both
for metav1.LabelSelectorRequirement (operators In, NotIn, Exists,
DoesNotExist) and for the internal labels.Requirement form. -/
structure Requirement where
  key : String
  op : String
  values : List String
deriving DecidableEq, Repr

/-- metav1.LabelSelector: matchLabels map plus matchExpressions. The Go map
is modelled as an association list in iteration order. -/
structure MetaLabelSelector where
  matchLabels : List (String × String)
  matchExpressions : List Requirement
deriving DecidableEq, Repr

/-- labels.Selector: either the match-nothing selector (labels.Nothing,
produced for a nil LabelSelector pointer) or a requirement list
(labels.Everything is the empty list). -/
inductive Selector where
  | nothingSel : Selector
  | reqs : List Requirement → Selector
deriving DecidableEq, Repr

/-- One matchExpressions entry converted to an internal requirement, as in
metav1.LabelSelectorAsSelector: In and NotIn need a non-empty value set,
Exists and DoesNotExist need an empty one, any other operator is invalid. -/
def requirementFromExpr (r : Requirement) : Except String Requirement :=
  match r.op with
  | "In" =>
    if r.values.isEmpty then
      Except.error "for in, notin operators, values set cannot be empty"
    else Except.ok { key := r.key, op := "in", values := r.values }
  | "NotIn" =>
    if r.values.isEmpty then
      Except.error "for in, notin operators, values set cannot be empty"
    else Except.ok { key := r.key, op := "notin", values := r.values }
  | "Exists" =>
    if r.values.isEmpty then Except.ok { key := r.key, op := "exists", values := [] }
    else Except.error "values set must be empty for exists and does not exist"
  | "DoesNotExist" =>
    if r.values.isEmpty then Except.ok { key := r.key, op := "does not exist", values := [] }
    else Except.error "values set must be empty for exists and does not exist"
  | other => Except.error (other ++ " is not a valid label selector operator")

/-- metav1.LabelSelectorAsSelector: nil pointer gives the match-nothing
selector, the empty selector gives match-everything, otherwise matchLabels
become equality requirements and matchExpressions are converted, failing on
an invalid expression. -/
def LabelSelectorAsSelector : Option MetaLabelSelector → Except String Selector
  | none => Except.ok Selector.nothingSel
  | some ps =>
    if ps.matchLabels.isEmpty ∧ ps.matchExpressions.isEmpty then
      Except.ok (Selector.reqs [])
    else do
      let fromLabels := ps.matchLabels.map
        (fun kv => ({ key := kv.1, op := "=", values := [kv.2] } : Requirement))
      let fromExprs ← ps.matchExpressions.mapM requirementFromExpr
      Except.ok (Selector.reqs (fromLabels ++ fromExprs))

/-- labels.SelectorFromSet: every map entry becomes an equality requirement;
never fails. -/
def SelectorFromSet (s : List (String × String)) : Selector :=
  Selector.reqs (s.map fun kv => { key := kv.1, op := "=", values := [kv.2] })

/-- fields.Selector, as built by fields.SelectorFromSet: a set of
field-to-value equalities. -/
def FieldSelector : Type := List (String × String)

instance : DecidableEq FieldSelector :=
  inferInstanceAs (DecidableEq (List (String × String)))

/-- fields.SelectorFromSet. -/
def FieldsSelectorFromSet (s : List (String × String)) : FieldSelector := s

/-- Rendering of one requirement, simplified from labels.Requirement.String:
the exact text is not load-bearing for any claim, only whether it is empty. -/
def requirementString (r : Requirement) : String :=
  match r.op with
  | "=" => r.key ++ "=" ++ r.values.headD ""
  | "in" => r.key ++ " in (" ++ String.intercalate "," r.values ++ ")"
  | "notin" => r.key ++ " notin (" ++ String.intercalate "," r.values ++ ")"
  | "exists" => r.key
  | "does not exist" => "!" ++ r.key
  | _ => r.key

/-- labels.Selector.String, simplified rendering. -/
def selectorString : Selector → String
  | Selector.nothingSel => ""
  | Selector.reqs l => String.intercalate "," (l.map requirementString)

/-- fields.Selector.String, simplified rendering. -/
def fieldSelectorString (f : FieldSelector) : String :=
  String.intercalate "," (f.map fun kv => kv.1 ++ "=" ++ kv.2)

/-! ## Cluster objects and errors -/

/-- The runtime.Object kinds handled by podsForObject and selectorsForObject.
Each variant carries only the fields those functions read: the namespace,
the selector of the right shape, and for services and nodes the name (the
other kinds never have their name read). A service selector is an optional
map to mirror the nil-map versus empty-map distinction of Go. -/
inductive KObject where
  | podList (items : List Pod)
  | pod (p : Pod)
  | replicaSet (ns : String) (sel : Option MetaLabelSelector)
  | replicationController (ns : String) (sel : List (String × String))
  | statefulSet (ns : String) (sel : Option MetaLabelSelector)
  | daemonSet (ns : String) (sel : Option MetaLabelSelector)
  | deployment (ns : String) (sel : Option MetaLabelSelector)
  | job (ns : String) (sel : Option MetaLabelSelector)
  | service (name : String) (ns : String) (sel : Option (List (String × String)))
  | node (name : String)
  | other (typeName : String)
deriving DecidableEq, Repr

/-- The string the Go %T verb prints for each supported pointer type. -/
def goTypeName : KObject → String
  | KObject.podList _ => "*v1.PodList"
  | KObject.pod _ => "*v1.Pod"
  | KObject.replicaSet _ _ => "*v1.ReplicaSet"
  | KObject.replicationController _ _ => "*v1.ReplicationController"
  | KObject.statefulSet _ _ => "*v1.StatefulSet"
  | KObject.daemonSet _ _ => "*v1.DaemonSet"
  | KObject.deployment _ _ => "*v1.Deployment"
  | KObject.job _ _ => "*v1.Job"
  | KObject.service _ _ _ => "*v1.Service"
  | KObject.node _ => "*v1.Node"
  | KObject.other t => t

/-- The ObjectMeta.Namespace field of the object (empty for cluster-scoped
or collection objects). -/
def objNamespace : KObject → String
  | KObject.podList _ => ""
  | KObject.pod p => p.ns
  | KObject.replicaSet ns _ => ns
  | KObject.replicationController ns _ => ns
  | KObject.statefulSet ns _ => ns
  | KObject.daemonSet ns _ => ns
  | KObject.deployment ns _ => ns
  | KObject.job ns _ => ns
  | KObject.service _ ns _ => ns
  | KObject.node _ => ""
  | KObject.other _ => ""

/-- The seven controller kinds given a case in selectorsForObject other than
the node case. -/
def supportedController : KObject → Bool
  | KObject.replicaSet _ _ => true
  | KObject.replicationController _ _ => true
  | KObject.statefulSet _ _ => true
  | KObject.daemonSet _ _ => true
  | KObject.deployment _ _ => true
  | KObject.job _ _ => true
  | KObject.service _ _ _ => true
  | _ => false

/-- Errors produced by the command, one constructor per distinct Go error
site, carrying the data interpolated into the Go format string. -/
inductive EvictError where
  | usageError
  | onlySelectorOrName
  | expectedAResource
  | noResourcesFound (ns : String)
  | namespaceWithNode
  | goPanic
  | invalidLabelSelector (msg : String)
  | invalidService (name : String)
  | unsupportedKind (typeName : String)
  | cannotGetLogsFrom (typeName : String) (inner : EvictError)
  | clusterError (msg : String)
deriving DecidableEq, Repr

/-- The message text of each error, following the Go format strings. The Go
source wraps the service name in single quote characters; the quote
characters are left out here, keeping the interpolated data and the
surrounding words. -/
def renderError : EvictError → String
  | EvictError.usageError =>
    "expected evict (POD | TYPE/NAME). POD or TYPE/NAME is a required argument for the evict command"
  | EvictError.onlySelectorOrName => "only a selector (-l) or a resource name is allowed"
  | EvictError.expectedAResource => "expected a resource"
  | EvictError.noResourcesFound ns => "no resources found in " ++ ns ++ " namespace"
  | EvictError.namespaceWithNode => "--namespace should not be specified with node target"
  | EvictError.goPanic => "runtime panic"
  | EvictError.invalidLabelSelector msg => "invalid label selector: " ++ msg
  | EvictError.invalidService name =>
    "invalid service " ++ (name ++ ": Service is defined without a selector")
  | EvictError.unsupportedKind t => "selector for " ++ t ++ " not implemented"
  | EvictError.cannotGetLogsFrom t inner =>
    "cannot get the logs from " ++ t ++ ": " ++ renderError inner
  | EvictError.clusterError msg => msg

/-! ## selectorsForObject and podsForObject (evict.go lines 186 to 264) -/

/-- evict.go lines 215 to 264: selectorsForObject. Returns the namespace
scope together with an optional label selector and an optional field
selector (Go returns nilable interface values). -/
def selectorsForObject (object : KObject) :
    Except EvictError (String × Option Selector × Option FieldSelector) :=
  match object with
  | KObject.replicaSet ns sel =>
    match LabelSelectorAsSelector sel with
    | Except.error m => Except.error (EvictError.invalidLabelSelector m)
    | Except.ok s => Except.ok (ns, some s, none)
  | KObject.replicationController ns sel =>
    Except.ok (ns, some (SelectorFromSet sel), none)
  | KObject.statefulSet ns sel =>
    match LabelSelectorAsSelector sel with
    | Except.error m => Except.error (EvictError.invalidLabelSelector m)
    | Except.ok s => Except.ok (ns, some s, none)
  | KObject.daemonSet ns sel =>
    match LabelSelectorAsSelector sel with
    | Except.error m => Except.error (EvictError.invalidLabelSelector m)
    | Except.ok s => Except.ok (ns, some s, none)
  | KObject.deployment ns sel =>
    match LabelSelectorAsSelector sel with
    | Except.error m => Except.error (EvictError.invalidLabelSelector m)
    | Except.ok s => Except.ok (ns, some s, none)
  | KObject.job ns sel =>
    match LabelSelectorAsSelector sel with
    | Except.error m => Except.error (EvictError.invalidLabelSelector m)
    | Except.ok s => Except.ok (ns, some s, none)
  | KObject.service name ns sel =>
    match sel with
    | none => Except.error (EvictError.invalidService name)
    | some m =>
      if m.isEmpty then Except.error (EvictError.invalidService name)
      else Except.ok (ns, some (SelectorFromSet m), none)
  | KObject.node name =>
    Except.ok (NamespaceAll, none, some (FieldsSelectorFromSet [("spec.nodeName", name)]))
  | obj => Except.error (EvictError.unsupportedKind (goTypeName obj))

/-- metav1.ListOptions, restricted to the two selector strings set by
podsForObject; the Go zero value is the empty string. -/
structure ListOptions where
  labelSelector : String
  fieldSelector : String
deriving DecidableEq, Repr

/-- evict.go lines 200 to 206: the ListOptions built from the optional
selectors (a field is set only when the selector is non-nil). -/
def buildListOptions (ls : Option Selector) (fs : Option FieldSelector) : ListOptions :=
  { labelSelector := match ls with | some s => selectorString s | none => "",
    fieldSelector := match fs with | some f => fieldSelectorString f | none => "" }

/-! ## Cluster interactions and traces -/

/-- Delete options carried by an eviction request (metav1.DeleteOptions,
restricted to the two fields the code sets). -/
structure DeleteOptions where
  gracePeriodSeconds : Option Int
  dryRun : List String
deriving DecidableEq, Repr

/-- Which eviction client was negotiated: policy/v1 (ClientV1) or
policy/v1beta1 (ClientV1beta1). -/
inductive ClientKind where
  | v1
  | v1beta1
deriving DecidableEq, Repr

/-- One transmitted eviction request: client used, target identity, and the
delete options it carries. -/
structure EvictionRequest where
  clientKind : ClientKind
  name : String
  ns : String
  deleteOptions : DeleteOptions
deriving DecidableEq, Repr

/-- One cluster interaction performed by RunEvict, in program order:
a pod list query, the one discovery query made by NewEvictClient, or a
transmitted eviction request. -/
inductive APIEvent where
  | listPods (ns : String) (opt : ListOptions)
  | discover
  | evict (req : EvictionRequest)
deriving DecidableEq, Repr

/-- The cluster as seen by one run: outcome oracles for REST config
construction, the discovery query for the core group, pod list queries, and
per-pod eviction outcomes (none means the server accepted the eviction). -/
structure Cluster where
  restConfig : Except EvictError Unit
  discovery : Except Unit (List APIResource)
  listPods : String → ListOptions → Except EvictError (List Pod)
  evictOutcome : Pod → Option EvictError

/-- evict.go lines 186 to 213: podsForObject. A pod list or single pod is
returned directly; otherwise selectors are derived (errors wrapped in the
cannot-get-the-logs-from message with the %T type name) and exactly one
list query is issued. Returns the events performed and the result. -/
def podsForObject (cluster : Cluster) (object : KObject) :
    List APIEvent × Except EvictError (List Pod) :=
  match object with
  | KObject.podList items => ([], Except.ok items)
  | KObject.pod p => ([], Except.ok [p])
  | obj =>
    match selectorsForObject obj with
    | Except.error e =>
      ([], Except.error (EvictError.cannotGetLogsFrom (goTypeName obj) e))
    | Except.ok (ns, ls, fs) =>
      let opt := buildListOptions ls fs
      ([APIEvent.listPods ns opt], cluster.listPods ns opt)

/-! ## Version negotiation (evict_api.go lines 23 to 46) -/

/-- The condition of the loop body at evict_api.go line 31: the resource is
the eviction subresource of the eviction kind with a non-empty group and a
non-empty version recorded against it. -/
def eligibleEvictionEntry (r : APIResource) : Bool :=
  r.name == EvictionSubresource && r.kind == EvictionKind
    && r.group != "" && r.version != ""

/-- The loop of evictGroupVersion: the group and version of the first
eligible entry, or the zero GroupVersion when none matches. -/
def findEvictionGV : List APIResource → GroupVersion
  | [] => { group := "", version := "" }
  | r :: rest =>
    if eligibleEvictionEntry r then { group := r.group, version := r.version }
    else findEvictionGV rest

/-- evict_api.go lines 23 to 37: evictGroupVersion. A discovery failure
yields the zero GroupVersion, otherwise the first eligible entry decides. -/
def evictGroupVersion : Except Unit (List APIResource) → GroupVersion
  | Except.error _ => { group := "", version := "" }
  | Except.ok resources => findEvictionGV resources

/-- evict_api.go lines 39 to 46: NewEvictClient. The stable client exactly
when evictGroupVersion equals policyv1.SchemeGroupVersion, the deprecated
client for every other value. -/
def NewEvictClient (discovery : Except Unit (List APIResource)) : ClientKind :=
  if evictGroupVersion discovery = PolicyV1SchemeGroupVersion then ClientKind.v1
  else ClientKind.v1beta1

/-! ## The eviction call -/

/-- A Go context value as passed around by the code: context.TODO, a context
supplied by the caller (possibly cancelled), or any other context. -/
inductive GoContext where
  | todo
  | cancelled
  | caller (id : Nat)
deriving DecidableEq, Repr

/-- The data determining one Evictions(...).Evict call as issued by the
two-argument EvictPod bodies in evict_api.go: the context the call runs
under and the name and namespace of the eviction object. -/
structure EvictCall where
  usedContext : GoContext
  name : String
  ns : String
deriving DecidableEq, Repr

/-- evict_api.go lines 52 to 60: ClientV1.EvictPod builds an eviction named
and namespaced as the pod and submits it under context.TODO(), not under
the ctx argument. -/
def ClientV1.EvictPod (ctx : GoContext) (pod : Pod) : EvictCall :=
  { usedContext := GoContext.todo, name := pod.name, ns := pod.ns }

/-- evict_api.go lines 66 to 74: ClientV1beta1.EvictPod, same shape through
the deprecated API, also submitted under context.TODO(). -/
def ClientV1beta1.EvictPod (ctx : GoContext) (pod : Pod) : EvictCall :=
  { usedContext := GoContext.todo, name := pod.name, ns := pod.ns }

/-- Modelled from the spec: the three-argument EvictPod implementation
invoked at evict.go line 177 as eviction.EvictPod(ctx, pod, opts) is not
present under src, where evict_api.go declares a two-argument Client
interface from an earlier revision. Per the spec, the eviction request is
named and namespaced identically to the target instance, carries the delete
options (grace period and dry-run), and is submitted through the client
selected during negotiation. -/
def mkEvictionRequest (ck : ClientKind) (opts : DeleteOptions) (pod : Pod) :
    EvictionRequest :=
  { clientKind := ck, name := pod.name, ns := pod.ns, deleteOptions := opts }

/-! ## RunEvict (evict.go lines 148 to 184) -/

/-- The fields of EvictOptions read by RunEvict. -/
structure EvictOpts where
  GracePeriodSeconds : Int
  DryRun : Bool
  Object : KObject
deriving Repr

/-- evict.go lines 162 to 168: the delete options. A fresh DeleteOptions has
no grace period and no dry-run list; GracePeriodSeconds is attached exactly
when the flag is non-negative, and the dry-run list becomes [DryRunAll]
exactly when the flag is set. -/
def buildDeleteOptions (gracePeriodSeconds : Int) (dryRun : Bool) : DeleteOptions :=
  { gracePeriodSeconds :=
      if 0 ≤ gracePeriodSeconds then some gracePeriodSeconds else none,
    dryRun := if dryRun then [DryRunAll] else [] }

/-- evict.go lines 170 to 173: the verb printed for each evicted pod. -/
def evictVerb (dryRun : Bool) : String :=
  if dryRun then "evicted (dry-run)" else "evicted"

/-- evict.go line 181: the success line written for one pod. -/
def evictedLine (pod : Pod) (verb : String) : String :=
  "pod " ++ pod.ns ++ "/" ++ pod.name ++ " " ++ verb

/-- The outcome of RunEvict: events performed, lines written to the output
stream, and the error returned (none on success). -/
structure RunResult where
  trace : List APIEvent
  lines : List String
  err : Option EvictError
deriving DecidableEq, Repr

/-- evict.go lines 176 to 183: the eviction loop. Pods are processed in
list order; each iteration transmits one eviction request, and on the first
failure the error is returned at once, with no line written for the failing
pod and no request issued for the remaining pods. -/
def evictLoop (eo : Pod → Option EvictError) (ck : ClientKind)
    (opts : DeleteOptions) (verb : String) :
    List Pod → List APIEvent × List String × Option EvictError
  | [] => ([], [], none)
  | p :: rest =>
    match eo p with
    | some e => ([APIEvent.evict (mkEvictionRequest ck opts p)], [], some e)
    | none =>
      let r := evictLoop eo ck opts verb rest
      (APIEvent.evict (mkEvictionRequest ck opts p) :: r.1,
        evictedLine p verb :: r.2.1, r.2.2)

/-- evict.go lines 148 to 184: RunEvict. Client construction, resolution of
the target object to pods, construction of the delete options and verb, one
call to NewEvictClient (the discovery event), then the eviction loop. -/
def RunEvict (o : EvictOpts) (cluster : Cluster) : RunResult :=
  match cluster.restConfig with
  | Except.error e => { trace := [], lines := [], err := some e }
  | Except.ok _ =>
    let pr := podsForObject cluster o.Object
    match pr.2 with
    | Except.error e => { trace := pr.1, lines := [], err := some e }
    | Except.ok pods =>
      let opts := buildDeleteOptions o.GracePeriodSeconds o.DryRun
      let verb := evictVerb o.DryRun
      let ck := NewEvictClient cluster.discovery
      let lr := evictLoop cluster.evictOutcome ck opts verb pods
      { trace := pr.1 ++ APIEvent.discover :: lr.1,
        lines := lr.2.1, err := lr.2.2 }

/-! ## Complete (evict.go lines 98 to 145) -/

/-- The collaborators Complete consults: the kubeconfig namespace lookup
(returning the namespace and whether it was explicitly overridden) and the
resource builder query returning the fetched infos. -/
structure CompleteEnv where
  nsResult : Except EvictError (String × Bool)
  infosResult : Except EvictError (List KObject)

/-- The one cluster interaction Complete performs: the builder Do().Infos()
query. -/
inductive ClusterOp where
  | builderInfos
deriving DecidableEq, Repr

/-- evict.go line 140: the node type check guarding the namespace override. -/
def nodeTargetCheck (nsOverridden : Bool) (obj : KObject) :
    Except EvictError KObject :=
  match obj with
  | KObject.node _ =>
    if nsOverridden then Except.error EvictError.namespaceWithNode
    else Except.ok obj
  | _ => Except.ok obj

/-- evict.go lines 98 to 145: Complete. Argument validation happens first
and returns before any query; then the namespace lookup, the builder query,
the single-resource check, the empty-pod-list check for selector
invocations (a failed type assertion is a Go panic), and the node namespace
check. Returns the cluster operations performed and the selected object. -/
def Complete (args : List String) (selector : String) (env : CompleteEnv) :
    List ClusterOp × Except EvictError KObject :=
  let argCheck : Except EvictError String :=
    match args with
    | [] =>
      if selector = "" then Except.error EvictError.usageError
      else Except.ok ""
    | [a] =>
      if selector ≠ "" then Except.error EvictError.onlySelectorOrName
      else Except.ok a
    | _ => Except.error EvictError.usageError
  match argCheck with
  | Except.error e => ([], Except.error e)
  | Except.ok _resourceArg =>
    match env.nsResult with
    | Except.error e => ([], Except.error e)
    | Except.ok (ns, nsOverridden) =>
      ([ClusterOp.builderInfos],
        match env.infosResult with
        | Except.error e => Except.error e
        | Except.ok infos =>
          if selector = "" ∧ infos.length ≠ 1 then
            Except.error EvictError.expectedAResource
          else
            match infos with
            | [] => Except.error EvictError.goPanic
            | obj :: _ =>
              if selector ≠ "" then
                match obj with
                | KObject.podList items =>
                  if items.length = 0 then
                    Except.error (EvictError.noResourcesFound ns)
                  else nodeTargetCheck nsOverridden obj
                | _ => Except.error EvictError.goPanic
              else nodeTargetCheck nsOverridden obj)

/-- The two argument-validation failures, both usage errors per the error
taxonomy of the spec. -/
def isUsageError : EvictError → Bool
  | EvictError.usageError => true
  | EvictError.onlySelectorOrName => true
  | _ => false

/-! ## Concrete data used by witnesses and counterexamples -/

/-- The selection condition as the claim words it: the discovery response
contains a resource entry named pods/eviction of kind Eviction with a
non-empty group and with (group, version) equal to the stable pair. Stated
from the claim text for comparison with the code, which instead takes the
first eligible entry whatever its group and version. -/
def containsStableEvictionEntry (l : List APIResource) : Bool :=
  l.any fun r =>
    r.name == EvictionSubresource && r.kind == EvictionKind && r.group != ""
      && r.group == "policy" && r.version == "v1"

/-- A discovery response holding two eligible eviction entries: a
policy/v1beta1 entry first, the stable policy/v1 entry second. -/
def negotiationCexResources : List APIResource :=
  [{ name := "pods/eviction", kind := "Eviction", group := "policy", version := "v1beta1" },
   { name := "pods/eviction", kind := "Eviction", group := "policy", version := "v1" }]

/-- The stable eviction discovery entry. -/
def stableEvictionEntry : APIResource :=
  { name := "pods/eviction", kind := "Eviction", group := "policy", version := "v1" }

/-- A healthy cluster with one nginx pod, used to instantiate theorems. -/
def witnessCluster : Cluster where
  restConfig := Except.ok ()
  discovery := Except.ok [stableEvictionEntry]
  listPods := fun _ _ => Except.ok [{ name := "nginx", ns := "default" }]
  evictOutcome := fun _ => none

/-- A CompleteEnv answering with the default namespace and no infos. -/
def emptyInfosEnv : CompleteEnv :=
  { nsResult := Except.ok ("default", false), infosResult := Except.ok [] }

/-- A CompleteEnv whose builder query returns one empty pod list. -/
def emptyPodListEnv : CompleteEnv :=
  { nsResult := Except.ok ("default", false),
    infosResult := Except.ok [KObject.podList []] }

def podA : Pod := { name := "pod-a", ns := "default" }

def podB : Pod := { name := "pod-b", ns := "default" }

def podC : Pod := { name := "pod-c", ns := "default" }

/-- A cluster on which evicting pod-b fails and every other eviction
succeeds. -/
def failSecondCluster : Cluster where
  restConfig := Except.ok ()
  discovery := Except.ok [stableEvictionEntry]
  listPods := fun _ _ => Except.ok [podA, podB, podC]
  evictOutcome := fun p =>
    if p.name = "pod-b" then some (EvictError.clusterError "pdb denied") else none

/-- Options targeting the three-pod list directly. -/
def threePodOpts : EvictOpts :=
  { GracePeriodSeconds := -1, DryRun := false,
    Object := KObject.podList [podA, podB, podC] }

/-- A deployment target whose selector matches no pods on zeroMatchCluster. -/
def zeroMatchDeployment : KObject :=
  KObject.deployment "default"
    (some { matchLabels := [("app", "nginx")], matchExpressions := [] })

/-- A cluster whose pod list queries return no pods. -/
def zeroMatchCluster : Cluster where
  restConfig := Except.ok ()
  discovery := Except.ok []
  listPods := fun _ _ => Except.ok []
  evictOutcome := fun _ => none

/-- Options targeting the zero-match deployment. -/
def zeroMatchOpts : EvictOpts :=
  { GracePeriodSeconds := -1, DryRun := false, Object := zeroMatchDeployment }

def nginxPod : Pod := { name := "nginx", ns := "default" }

/-- Options targeting the single nginx pod with no grace period and no
dry-run. -/
def nginxEvictOpts : EvictOpts :=
  { GracePeriodSeconds := -1, DryRun := false, Object := KObject.pod nginxPod }

/-! ## Helper lemmas -/

theorem evictLoop_trace_mem (eo : Pod → Option EvictError) (ck : ClientKind)
    (opts : DeleteOptions) (verb : String) (pods : List Pod) :
    ∀ x ∈ (evictLoop eo ck opts verb pods).1,
      ∃ p, x = APIEvent.evict (mkEvictionRequest ck opts p) := by
  induction pods with
  | nil => simp [evictLoop]
  | cons p rest ih =>
    intro x hx
    simp only [evictLoop] at hx
    cases h : eo p with
    | some e =>
      rw [h] at hx
      simp at hx
      exact ⟨p, hx⟩
    | none =>
      rw [h] at hx
      simp at hx
      rcases hx with h1 | h2
      · exact ⟨p, h1⟩
      · exact ih x h2

theorem evictLoop_lines_mem (eo : Pod → Option EvictError) (ck : ClientKind)
    (opts : DeleteOptions) (verb : String) (pods : List Pod) :
    ∀ l ∈ (evictLoop eo ck opts verb pods).2.1, ∃ p, l = evictedLine p verb := by
  induction pods with
  | nil => simp [evictLoop]
  | cons p rest ih =>
    intro l hl
    simp only [evictLoop] at hl
    cases h : eo p with
    | some e =>
      rw [h] at hl
      simp at hl
    | none =>
      rw [h] at hl
      simp at hl
      rcases hl with h1 | h2
      · exact ⟨p, h1⟩
      · exact ih l h2

theorem evictLoop_append (eo : Pod → Option EvictError) (ck : ClientKind)
    (opts : DeleteOptions) (verb : String) (pre : List Pod) (pk : Pod)
    (post : List Pod) (e : EvictError)
    (h1 : ∀ p ∈ pre, eo p = none) (h2 : eo pk = some e) :
    evictLoop eo ck opts verb (pre ++ pk :: post) =
      ((pre ++ [pk]).map (fun p => APIEvent.evict (mkEvictionRequest ck opts p)),
        pre.map (fun p => evictedLine p verb), some e) := by
  induction pre with
  | nil => simp [evictLoop, h2]
  | cons p pre ih =>
    have hp : eo p = none := h1 p (by simp)
    have h1t : ∀ q ∈ pre, eo q = none := fun q hq => h1 q (by simp [hq])
    simp [evictLoop, hp, ih h1t]

theorem podsForObject_trace_mem (cluster : Cluster) (obj : KObject) :
    ∀ x ∈ (podsForObject cluster obj).1, ∃ ns opt, x = APIEvent.listPods ns opt := by
  intro x hx
  cases obj <;> simp only [podsForObject] at hx <;> try (exact absurd hx (by simp))
  all_goals
    split at hx
    · exact absurd hx (by simp)
    · simp at hx
      exact ⟨_, _, hx⟩

theorem runEvict_trace_shape (o : EvictOpts) (cluster : Cluster) :
    ∃ resEvents loopTrace,
      (∀ x ∈ resEvents, ∃ ns opt, x = APIEvent.listPods ns opt) ∧
      (∀ x ∈ loopTrace, ∃ p, x = APIEvent.evict (mkEvictionRequest
        (NewEvictClient cluster.discovery)
        (buildDeleteOptions o.GracePeriodSeconds o.DryRun) p)) ∧
      ((RunEvict o cluster).trace = resEvents ∨
        (RunEvict o cluster).trace = resEvents ++ APIEvent.discover :: loopTrace) := by
  cases hc : cluster.restConfig with
  | error e =>
    refine ⟨[], [], by simp, by simp, Or.inl ?_⟩
    simp [RunEvict, hc]
  | ok u =>
    cases hp : (podsForObject cluster o.Object).2 with
    | error e =>
      refine ⟨(podsForObject cluster o.Object).1, [],
        podsForObject_trace_mem cluster o.Object, by simp, Or.inl ?_⟩
      simp [RunEvict, hc, hp]
    | ok pods =>
      refine ⟨(podsForObject cluster o.Object).1,
        (evictLoop cluster.evictOutcome (NewEvictClient cluster.discovery)
          (buildDeleteOptions o.GracePeriodSeconds o.DryRun)
          (evictVerb o.DryRun) pods).1,
        podsForObject_trace_mem cluster o.Object,
        evictLoop_trace_mem _ _ _ _ _, Or.inr ?_⟩
      simp [RunEvict, hc, hp]

theorem runEvict_lines_shape (o : EvictOpts) (cluster : Cluster) :
    ∀ l ∈ (RunEvict o cluster).lines, ∃ p, l = evictedLine p (evictVerb o.DryRun) := by
  intro l hl
  cases hc : cluster.restConfig with
  | error e => simp [RunEvict, hc] at hl
  | ok u =>
    cases hp : (podsForObject cluster o.Object).2 with
    | error e => simp [RunEvict, hc, hp] at hl
    | ok pods =>
      simp only [RunEvict, hc, hp] at hl
      exact evictLoop_lines_mem _ _ _ _ _ l hl

theorem runEvict_evict_req (o : EvictOpts) (cluster : Cluster) (req : EvictionRequest)
    (h : APIEvent.evict req ∈ (RunEvict o cluster).trace) :
    req.deleteOptions = buildDeleteOptions o.GracePeriodSeconds o.DryRun ∧
      req.clientKind = NewEvictClient cluster.discovery := by
  obtain ⟨resEvents, loopTrace, hres, hloop, hcase⟩ := runEvict_trace_shape o cluster
  cases hcase with
  | inl he =>
    rw [he] at h
    obtain ⟨ns, opt, hx⟩ := hres _ h
    exact absurd hx (by simp)
  | inr he =>
    rw [he] at h
    rcases List.mem_append.mp h with h1 | h2
    · obtain ⟨ns, opt, hx⟩ := hres _ h1
      exact absurd hx (by simp)
    · rcases List.mem_cons.mp h2 with h3 | h4
      · exact absurd h3 (by simp)
      · obtain ⟨p, hx⟩ := hloop _ h4
        simp only [APIEvent.evict.injEq] at hx
        subst hx
        simp [mkEvictionRequest]

theorem findEvictionGV_eq_stable (l : List APIResource) :
    findEvictionGV l = PolicyV1SchemeGroupVersion ↔
      ∃ l1 r l2, l = l1 ++ r :: l2 ∧ eligibleEvictionEntry r = true ∧
        r.group = "policy" ∧ r.version = "v1" ∧
        ∀ x ∈ l1, eligibleEvictionEntry x = false := by
  induction l with
  | nil =>
    constructor
    · intro h
      exact absurd h (by decide)
    · rintro ⟨l1, r, l2, h, -⟩
      cases l1 <;> simp at h
  | cons a rest ih =>
    by_cases ha : eligibleEvictionEntry a = true
    · simp only [findEvictionGV, ha, if_true]
      constructor
      · intro h
        simp only [PolicyV1SchemeGroupVersion, GroupVersion.mk.injEq] at h
        exact ⟨[], a, rest, rfl, ha, h.1, h.2, by simp⟩
      · rintro ⟨l1, r, l2, hsplit, helig, hg, hv, hall⟩
        cases l1 with
        | nil =>
          simp only [List.nil_append, List.cons.injEq] at hsplit
          rw [hsplit.1]
          simp [PolicyV1SchemeGroupVersion, hg, hv]
        | cons b l1 =>
          simp only [List.cons_append, List.cons.injEq] at hsplit
          have hb := hall b (by simp)
          rw [← hsplit.1] at hb
          rw [ha] at hb
          exact absurd hb (by simp)
    · have ha' : eligibleEvictionEntry a = false := by
        simpa using ha
      simp only [findEvictionGV, ha', if_false, Bool.false_eq_true]
      rw [ih]
      constructor
      · rintro ⟨l1, r, l2, hsplit, helig, hg, hv, hall⟩
        refine ⟨a :: l1, r, l2, by rw [hsplit]; rfl, helig, hg, hv, ?_⟩
        intro x hx
        rcases List.mem_cons.mp hx with h | h
        · rw [h]; exact ha'
        · exact hall x h
      · rintro ⟨l1, r, l2, hsplit, helig, hg, hv, hall⟩
        cases l1 with
        | nil =>
          simp only [List.nil_append, List.cons.injEq] at hsplit
          rw [hsplit.1] at ha'
          rw [helig] at ha'
          exact absurd ha' (by simp)
        | cons b l1 =>
          simp only [List.cons_append, List.cons.injEq] at hsplit
          exact ⟨l1, r, l2, hsplit.2, helig, hg, hv, fun x hx => hall x (by simp [hx])⟩

theorem selectorsForObject_shape (obj : KObject) (ns : String)
    (ls : Option Selector) (fs : Option FieldSelector)
    (h : selectorsForObject obj = Except.ok (ns, ls, fs)) :
    fs = none ∨ ls = none := by
  cases obj <;> simp only [selectorsForObject] at h <;>
    (try split at h) <;> (try split at h) <;> simp_all

/-! ## Claim theorems -/

/-- C5: for every input object kind, selector derivation produces at most
one of a label selector and a field selector, never both in the same list
query; for a node target the derived query is exactly a field selector
matching spec.nodeName equal to the node name, over all namespaces, with no
label selector. -/
theorem selector_derivation_at_most_one (obj : KObject) :
    (∀ ns ls fs, selectorsForObject obj = Except.ok (ns, ls, fs) →
      ¬(ls.isSome = true ∧ fs.isSome = true) ∧
      ¬((buildListOptions ls fs).labelSelector ≠ "" ∧
        (buildListOptions ls fs).fieldSelector ≠ "")) ∧
    (∀ nm, obj = KObject.node nm →
      selectorsForObject obj =
        Except.ok (NamespaceAll, none,
          some (FieldsSelectorFromSet [("spec.nodeName", nm)]))) := by
  constructor
  · intro ns ls fs h
    rcases selectorsForObject_shape obj ns ls fs h with hf | hl
    · subst hf
      constructor
      · rintro ⟨-, hs⟩
        simp at hs
      · rintro ⟨-, hs⟩
        simp [buildListOptions] at hs
    · subst hl
      constructor
      · rintro ⟨hs, -⟩
        simp at hs
      · rintro ⟨hs, -⟩
        simp [buildListOptions] at hs
  · intro nm h
    subst h
    rfl

/-- C5 witness: the node case of selector_derivation_at_most_one evaluated at
a concrete node target. -/
theorem selector_derivation_at_most_one_witness :
    selectorsForObject (KObject.node "worker-1") =
      Except.ok (NamespaceAll, none,
        some (FieldsSelectorFromSet [("spec.nodeName", "worker-1")])) ∧
    ¬((none : Option Selector).isSome = true ∧
      (some (FieldsSelectorFromSet [("spec.nodeName", "worker-1")])).isSome = true) :=
  ⟨(selector_derivation_at_most_one (KObject.node "worker-1")).2 "worker-1" rfl,
   ((selector_derivation_at_most_one (KObject.node "worker-1")).1 NamespaceAll none
      (some (FieldsSelectorFromSet [("spec.nodeName", "worker-1")])) rfl).1⟩

/-- C6: for every supported controller kind the namespace of the derived
selector query equals the source object namespace; for a node target the
namespace scope is all namespaces; for any other kind, selector derivation
fails with the unsupported-kind error. -/
theorem selector_derivation_namespace (obj : KObject) :
    (supportedController obj = true →
      ∀ ns ls fs, selectorsForObject obj = Except.ok (ns, ls, fs) →
        ns = objNamespace obj) ∧
    (∀ nm, obj = KObject.node nm →
      ∃ fs, selectorsForObject obj = Except.ok (NamespaceAll, none, some fs)) ∧
    (supportedController obj = false → (∀ nm, obj ≠ KObject.node nm) →
      selectorsForObject obj =
        Except.error (EvictError.unsupportedKind (goTypeName obj))) := by
  refine ⟨?_, ?_, ?_⟩
  · intro hsup ns ls fs h
    cases obj <;> simp only [selectorsForObject] at h <;>
      (try split at h) <;> (try split at h) <;> simp_all [objNamespace, supportedController]
  · intro nm h
    subst h
    exact ⟨FieldsSelectorFromSet [("spec.nodeName", nm)], rfl⟩
  · intro hsup hnode
    cases obj <;> simp_all [supportedController] <;> rfl

/-- C6 witness: selector_derivation_namespace evaluated at a concrete
deployment and a concrete unknown kind. -/
theorem selector_derivation_namespace_witness :
    "default" = objNamespace (KObject.deployment "default"
      (some { matchLabels := [("app", "nginx")], matchExpressions := [] })) ∧
    selectorsForObject (KObject.other "*v1.Secret") =
      Except.error (EvictError.unsupportedKind "*v1.Secret") :=
  ⟨(selector_derivation_namespace (KObject.deployment "default"
      (some { matchLabels := [("app", "nginx")], matchExpressions := [] }))).1 rfl
      "default"
      (some (Selector.reqs [{ key := "app", op := "=", values := ["nginx"] }]))
      none rfl,
   (selector_derivation_namespace (KObject.other "*v1.Secret")).2.2 rfl
      (fun nm h => KObject.noConfusion h)⟩

/-- C7: a service target whose selector map is nil or empty makes selector
derivation fail with the invalid-service error, and resolution through
podsForObject fails with an error whose message mentions the service name,
never returning an empty instance list silently. -/
theorem service_without_selector_errors (cluster : Cluster) (name ns : String)
    (sel : Option (List (String × String))) (h : sel = none ∨ sel = some []) :
    selectorsForObject (KObject.service name ns sel) =
      Except.error (EvictError.invalidService name) ∧
    ∃ e, podsForObject cluster (KObject.service name ns sel) =
        ([], Except.error e) ∧
      ∃ p q, renderError e = p ++ (name ++ q) := by
  have hsel : selectorsForObject (KObject.service name ns sel) =
      Except.error (EvictError.invalidService name) := by
    rcases h with h | h <;> subst h <;> rfl
  refine ⟨hsel,
    EvictError.cannotGetLogsFrom "*v1.Service" (EvictError.invalidService name),
    ?_, ?_⟩
  · simp [podsForObject, hsel, goTypeName]
  · refine ⟨"cannot get the logs from " ++ "*v1.Service" ++ ": " ++ "invalid service ",
      ": Service is defined without a selector", ?_⟩
    simp [renderError, String.append_assoc]
    rw [← String.append_assoc]
    congr 1

/-- C7 witness: service_without_selector_errors at a concrete service with a
nil selector map. -/
theorem service_without_selector_errors_witness :
    (selectorsForObject (KObject.service "mysvc" "default" none) =
      Except.error (EvictError.invalidService "mysvc") ∧
    ∃ e, podsForObject witnessCluster (KObject.service "mysvc" "default" none) =
        ([], Except.error e) ∧
      ∃ p q, renderError e = p ++ ("mysvc" ++ q)) ∧
    (none : Option (List (String × String))) = none :=
  ⟨service_without_selector_errors witnessCluster "mysvc" "default" none
      (Or.inl rfl),
   rfl⟩

/-- C9: refuted by the code. The claim requires every eviction request to be
issued under the caller request context; both EvictPod implementations
instead issue the Evictions Evict call under context.TODO, discarding the
ctx argument, so cancelling the caller context cannot abort the in-flight
call. -/
theorem evictPod_ignores_caller_context :
    (∀ ctx pod, (ClientV1.EvictPod ctx pod).usedContext = GoContext.todo ∧
      (ClientV1beta1.EvictPod ctx pod).usedContext = GoContext.todo) ∧
    (ClientV1.EvictPod GoContext.cancelled
      { name := "nginx", ns := "default" }).usedContext ≠ GoContext.cancelled :=
  ⟨fun _ _ => ⟨rfl, rfl⟩, by decide⟩

/-- C10: supplying neither the positional argument nor the selector,
supplying both, or supplying more than one positional argument makes
Complete fail with a usage error before any cluster query is performed. -/
theorem complete_usage_errors (args : List String) (selector : String)
    (env : CompleteEnv)
    (h : (args = [] ∧ selector = "") ∨ (args.length = 1 ∧ selector ≠ "") ∨
      2 ≤ args.length) :
    ∃ e, Complete args selector env = ([], Except.error e) ∧
      isUsageError e = true := by
  rcases h with ⟨h1, h2⟩ | ⟨h1, h2⟩ | h1
  · subst h1
    subst h2
    exact ⟨EvictError.usageError, rfl, rfl⟩
  · obtain ⟨a, rfl⟩ : ∃ a, args = [a] := by
      cases args with
      | nil => simp at h1
      | cons a t =>
        cases t with
        | nil => exact ⟨a, rfl⟩
        | cons b r => simp at h1
    refine ⟨EvictError.onlySelectorOrName, ?_, rfl⟩
    simp [Complete, h2]
  · match args, h1 with
    | a :: b :: rest, _ => exact ⟨EvictError.usageError, rfl, rfl⟩

/-- C10 witness: complete_usage_errors with two positional arguments. -/
theorem complete_usage_errors_witness :
    ∃ e, Complete ["nginx", "redis"] "" emptyInfosEnv = ([], Except.error e) ∧
      isUsageError e = true :=
  complete_usage_errors ["nginx", "redis"] "" emptyInfosEnv
    (Or.inr (Or.inr (by decide)))

/-- C3: evictions are issued strictly in list order and the run
short-circuits on the first failure: when all pods before pk succeed and pk
fails with e, the trace carries one eviction request per pod up to and
including pk (none for the pods after pk), one evicted line is written per
pod before pk in order, and e is returned. -/
theorem runEvict_short_circuit (o : EvictOpts) (cluster : Cluster)
    (resEvents : List APIEvent) (pre : List Pod) (pk : Pod) (post : List Pod)
    (e : EvictError)
    (hcfg : cluster.restConfig = Except.ok ())
    (hres : podsForObject cluster o.Object = (resEvents, Except.ok (pre ++ pk :: post)))
    (hpre : ∀ p ∈ pre, cluster.evictOutcome p = none)
    (hpk : cluster.evictOutcome pk = some e) :
    RunEvict o cluster =
      { trace := resEvents ++ APIEvent.discover ::
          ((pre ++ [pk]).map (fun p => APIEvent.evict (mkEvictionRequest
            (NewEvictClient cluster.discovery)
            (buildDeleteOptions o.GracePeriodSeconds o.DryRun) p))),
        lines := pre.map (fun p => evictedLine p (evictVerb o.DryRun)),
        err := some e } := by
  have h2 : (podsForObject cluster o.Object).2 = Except.ok (pre ++ pk :: post) := by
    rw [hres]
  have h1 : (podsForObject cluster o.Object).1 = resEvents := by
    rw [hres]
  simp [RunEvict, hcfg, h2, h1,
    evictLoop_append cluster.evictOutcome (NewEvictClient cluster.discovery)
      (buildDeleteOptions o.GracePeriodSeconds o.DryRun) (evictVerb o.DryRun)
      pre pk post e hpre hpk]

/-- C3 witness: runEvict_short_circuit on three concrete pods of which the
second fails: pod-a is reported evicted, the pod-b error is returned, pod-c
is never attempted. -/
theorem runEvict_short_circuit_witness :
    RunEvict threePodOpts failSecondCluster =
      { trace := [] ++ APIEvent.discover ::
          (([podA] ++ [podB]).map (fun p => APIEvent.evict (mkEvictionRequest
            (NewEvictClient failSecondCluster.discovery)
            (buildDeleteOptions threePodOpts.GracePeriodSeconds threePodOpts.DryRun) p))),
        lines := [podA].map (fun p => evictedLine p (evictVerb threePodOpts.DryRun)),
        err := some (EvictError.clusterError "pdb denied") } :=
  runEvict_short_circuit threePodOpts failSecondCluster [] [podA] podB [podC]
    (EvictError.clusterError "pdb denied") rfl rfl (by decide) (by decide)

/-- C2: every transmitted eviction request carries
GracePeriodSeconds equal to the flag value exactly when the flag is
non-negative, and carries no grace period when the flag is negative. -/
theorem grace_period_in_delete_options (o : EvictOpts) (cluster : Cluster)
    (req : EvictionRequest)
    (h : APIEvent.evict req ∈ (RunEvict o cluster).trace) :
    (0 ≤ o.GracePeriodSeconds →
      req.deleteOptions.gracePeriodSeconds = some o.GracePeriodSeconds) ∧
    (o.GracePeriodSeconds < 0 →
      req.deleteOptions.gracePeriodSeconds = none) := by
  have hopt := (runEvict_evict_req o cluster req h).1
  constructor
  · intro hge
    rw [hopt]
    simp [buildDeleteOptions, hge]
  · intro hlt
    rw [hopt]
    simp only [buildDeleteOptions]
    rw [if_neg (by omega)]

/-- C2 witness: grace_period_in_delete_options on a run with grace period 5
against the one-pod witness cluster. -/
theorem grace_period_in_delete_options_witness :
    (0 : Int) ≤ 5 ∧
    (mkEvictionRequest (NewEvictClient witnessCluster.discovery)
      (buildDeleteOptions 5 false)
      { name := "nginx", ns := "default" }).deleteOptions.gracePeriodSeconds =
      some 5 :=
  ⟨by decide,
   (grace_period_in_delete_options
      { GracePeriodSeconds := 5, DryRun := false,
        Object := KObject.pod { name := "nginx", ns := "default" } }
      witnessCluster
      (mkEvictionRequest (NewEvictClient witnessCluster.discovery)
        (buildDeleteOptions 5 false) { name := "nginx", ns := "default" })
      (by decide)).1 (by decide)⟩

/-- C4: when the dry-run flag is set every transmitted eviction request
carries the All dry-run mode and every success line ends with the dry-run
verb; when it is unset no dry-run mode is transmitted and every success
line ends with evicted. -/
theorem dry_run_in_delete_options_and_lines (o : EvictOpts) (cluster : Cluster) :
    (o.DryRun = true →
      (∀ req, APIEvent.evict req ∈ (RunEvict o cluster).trace →
        req.deleteOptions.dryRun = [DryRunAll]) ∧
      (∀ l ∈ (RunEvict o cluster).lines, ∃ s, l = s ++ "evicted (dry-run)")) ∧
    (o.DryRun = false →
      (∀ req, APIEvent.evict req ∈ (RunEvict o cluster).trace →
        req.deleteOptions.dryRun = []) ∧
      (∀ l ∈ (RunEvict o cluster).lines, ∃ s, l = s ++ "evicted")) := by
  constructor
  · intro hd
    constructor
    · intro req h
      rw [(runEvict_evict_req o cluster req h).1]
      simp [buildDeleteOptions, hd]
    · intro l hl
      obtain ⟨p, hp⟩ := runEvict_lines_shape o cluster l hl
      refine ⟨"pod " ++ p.ns ++ "/" ++ p.name ++ " ", ?_⟩
      rw [hp]
      simp [evictedLine, evictVerb, hd]
  · intro hd
    constructor
    · intro req h
      rw [(runEvict_evict_req o cluster req h).1]
      simp [buildDeleteOptions, hd]
    · intro l hl
      obtain ⟨p, hp⟩ := runEvict_lines_shape o cluster l hl
      refine ⟨"pod " ++ p.ns ++ "/" ++ p.name ++ " ", ?_⟩
      rw [hp]
      simp [evictedLine, evictVerb, hd]

/-- C4 witness: dry_run_in_delete_options_and_lines with the dry-run flag
set, on the one-pod witness cluster. -/
theorem dry_run_in_delete_options_and_lines_witness :
    (mkEvictionRequest (NewEvictClient witnessCluster.discovery)
      (buildDeleteOptions (-1) true)
      { name := "nginx", ns := "default" }).deleteOptions.dryRun = [DryRunAll] ∧
    ∃ s, evictedLine { name := "nginx", ns := "default" } (evictVerb true) =
      s ++ "evicted (dry-run)" :=
  ⟨((dry_run_in_delete_options_and_lines
      { GracePeriodSeconds := -1, DryRun := true,
        Object := KObject.pod { name := "nginx", ns := "default" } }
      witnessCluster).1 rfl).1
      (mkEvictionRequest (NewEvictClient witnessCluster.discovery)
        (buildDeleteOptions (-1) true) { name := "nginx", ns := "default" })
      (by decide),
   ((dry_run_in_delete_options_and_lines
      { GracePeriodSeconds := -1, DryRun := true,
        Object := KObject.pod { name := "nginx", ns := "default" } }
      witnessCluster).1 rfl).2
      (evictedLine { name := "nginx", ns := "default" } (evictVerb true))
      (by decide)⟩

/-- C1 counterexample: a discovery response that contains the stable
pods/eviction entry (so the claim as stated selects the stable client) on
which NewEvictClient nevertheless selects the deprecated client, because an
earlier eligible entry carries policy/v1beta1 and the code takes the first
eligible entry. -/
theorem eviction_version_negotiation_counterexample :
    containsStableEvictionEntry negotiationCexResources = true ∧
    NewEvictClient (Except.ok negotiationCexResources) ≠ ClientKind.v1 := by
  decide

/-- C1 amended: the stable client is selected if and only if the first
discovery entry that is named pods/eviction, of kind Eviction, with a
non-empty group and version, carries exactly the stable (policy, v1) pair
(any other discovery outcome, a discovery error included, selects the
deprecated client); and in every run the negotiation decision is taken at
most once, before any eviction request, and every transmitted request uses
the client so selected. -/
theorem eviction_version_negotiation :
    (∀ d : Except Unit (List APIResource),
      NewEvictClient d = ClientKind.v1 ↔
        ∃ l, d = Except.ok l ∧ ∃ l1 r l2, l = l1 ++ r :: l2 ∧
          eligibleEvictionEntry r = true ∧ r.group = "policy" ∧
          r.version = "v1" ∧ ∀ x ∈ l1, eligibleEvictionEntry x = false) ∧
    (∀ (o : EvictOpts) (cluster : Cluster), ∃ resEvents loopTrace,
      (∀ x ∈ resEvents, ∃ ns opt, x = APIEvent.listPods ns opt) ∧
      (∀ x ∈ loopTrace, ∃ p, x = APIEvent.evict (mkEvictionRequest
        (NewEvictClient cluster.discovery)
        (buildDeleteOptions o.GracePeriodSeconds o.DryRun) p)) ∧
      ((RunEvict o cluster).trace = resEvents ∨
        (RunEvict o cluster).trace =
          resEvents ++ APIEvent.discover :: loopTrace)) := by
  constructor
  · intro d
    cases d with
    | error u =>
      constructor
      · intro h
        cases u
        exact absurd h (by decide)
      · rintro ⟨l, hl, -⟩
        exact Except.noConfusion hl
    | ok l =>
      have hiff : NewEvictClient (Except.ok l) = ClientKind.v1 ↔
          findEvictionGV l = PolicyV1SchemeGroupVersion := by
        by_cases hgv : findEvictionGV l = PolicyV1SchemeGroupVersion
        · simp [NewEvictClient, evictGroupVersion, hgv]
        · simp [NewEvictClient, evictGroupVersion, hgv]
      rw [hiff, findEvictionGV_eq_stable]
      constructor
      · intro h
        exact ⟨l, rfl, h⟩
      · rintro ⟨l', hl', h⟩
        cases hl'
        exact h
  · intro o cluster
    exact runEvict_trace_shape o cluster

/-- C1 witness: the amended negotiation rule applied to a one-entry stable
discovery response, and the once-before-evictions trace shape of a concrete
run. -/
theorem eviction_version_negotiation_witness :
    NewEvictClient (Except.ok [stableEvictionEntry]) = ClientKind.v1 ∧
    (∃ resEvents loopTrace,
      (∀ x ∈ resEvents, ∃ ns opt, x = APIEvent.listPods ns opt) ∧
      (∀ x ∈ loopTrace, ∃ p, x = APIEvent.evict (mkEvictionRequest
        (NewEvictClient witnessCluster.discovery)
        (buildDeleteOptions nginxEvictOpts.GracePeriodSeconds nginxEvictOpts.DryRun) p)) ∧
      ((RunEvict nginxEvictOpts witnessCluster).trace = resEvents ∨
        (RunEvict nginxEvictOpts witnessCluster).trace =
          resEvents ++ APIEvent.discover :: loopTrace)) :=
  ⟨(eviction_version_negotiation.1 (Except.ok [stableEvictionEntry])).mpr
      ⟨[stableEvictionEntry], rfl, [], stableEvictionEntry, [], rfl,
        by decide, by decide, by decide, by simp⟩,
   eviction_version_negotiation.2 nginxEvictOpts witnessCluster⟩

/-- C8 counterexample: a deployment target (not a single-instance target)
that resolves to zero pods, on which the run finishes without error, with
no output lines and no eviction request: the zero-match condition is not
reported for controller-kind targets. -/
theorem zero_matches_counterexample :
    (podsForObject zeroMatchCluster zeroMatchDeployment).2 = Except.ok [] ∧
    (RunEvict zeroMatchOpts zeroMatchCluster).err = none ∧
    (RunEvict zeroMatchOpts zeroMatchCluster).lines = [] ∧
    (RunEvict zeroMatchOpts zeroMatchCluster).trace.countP
      (fun x => match x with | APIEvent.evict _ => true | _ => false) = 0 :=
  ⟨rfl, rfl, rfl, rfl⟩

/-- C8 amended: only a label-selector invocation that resolves to zero
instances is reported as an error (the no-resources-found error raised in
Complete, before RunEvict); a controller-kind or node target that resolves
to zero instances is not an error: the run completes with no error, no
output lines and no eviction requests. -/
theorem zero_matches_reporting :
    (∀ (selector : String) (env : CompleteEnv) (ns : String) (ov : Bool),
      selector ≠ "" → env.nsResult = Except.ok (ns, ov) →
      env.infosResult = Except.ok [KObject.podList []] →
      Complete [] selector env =
        ([ClusterOp.builderInfos],
          Except.error (EvictError.noResourcesFound ns))) ∧
    (∀ (o : EvictOpts) (cluster : Cluster),
      cluster.restConfig = Except.ok () →
      (podsForObject cluster o.Object).2 = Except.ok [] →
      (RunEvict o cluster).err = none ∧ (RunEvict o cluster).lines = [] ∧
      ∀ req, APIEvent.evict req ∉ (RunEvict o cluster).trace) := by
  constructor
  · intro selector env ns ov hsel hns hinfos
    simp [Complete, hsel, hns, hinfos]
  · intro o cluster hcfg hres
    have hrun : RunEvict o cluster =
        { trace := (podsForObject cluster o.Object).1 ++ [APIEvent.discover],
          lines := [], err := none } := by
      simp [RunEvict, hcfg, hres, evictLoop]
    rw [hrun]
    refine ⟨rfl, rfl, ?_⟩
    intro req hreq
    rcases List.mem_append.mp hreq with h1 | h2
    · obtain ⟨ns, opt, hx⟩ := podsForObject_trace_mem cluster o.Object _ h1
      exact absurd hx (by simp)
    · simp at h2

/-- C8 witness: zero_matches_reporting applied to a concrete selector
invocation returning an empty pod list, and to the concrete zero-match
deployment run. -/
theorem zero_matches_reporting_witness :
    Complete [] "app=nginx" emptyPodListEnv =
      ([ClusterOp.builderInfos],
        Except.error (EvictError.noResourcesFound "default")) ∧
    (RunEvict zeroMatchOpts zeroMatchCluster).err = none :=
  ⟨zero_matches_reporting.1 "app=nginx" emptyPodListEnv "default" false
      (by decide) rfl rfl,
   (zero_matches_reporting.2 zeroMatchOpts zeroMatchCluster rfl rfl).1⟩
